import Mathlib

/-!
Verification of the discrepancy-detection service
(`src/eogBackend/apis/discrepancyDectector.py`).

The Python module exposes two functions:

* `check_discrepancy(cauldron_id, date, drain_volume, tolerance, threshold)`
  fetches a JSON payload of ticket records, filters them to the requested
  cauldron and date, sums `amount_collected` and classifies the deviation
  from `drain_volume`.
* `detect_daily_discrepancy()` — the Flask handler wrapping it.

The embedding below models JSON values as an inductive type, Python floats
as exact rationals (`ℚ`), and an unhandled Python exception as the
`Except.error` constructor of the result type.  The upstream HTTP fetch is
not modelled: the decoded response body (`response.json()`) is a parameter
`apiData`; everything from the shape dispatch onwards follows the source
line by line.  Date parsing (`pd.to_datetime(...).date()`) is modelled for
ISO `YYYY-MM-DD[...]` strings — the date representation the system
exchanges: a string that passes the ISO shape check normalizes to its
first ten characters, every other payload takes the exception path of
`pd.to_datetime`, both for the request date (line 66) and for the
whole-column conversion of the ticket dates (line 65).  Likewise the
`amount_collected` aggregation (lines 83-84) raises on non-numeric cells.
All three sit outside every `try` block of the source.
-/

/-- A JSON value, the input/output currency of the Python module. -/
inductive Json where
  | null : Json
  | bool : Bool → Json
  | num : ℚ → Json
  | str : String → Json
  | arr : List Json → Json
  | obj : List (String × Json) → Json
deriving Repr

/-- First binding of `key` in an association list, i.e. Python `dict` lookup
(`d[key]` / `d.get(key)` / `key in d`). -/
def lookupList (fields : List (String × Json)) (key : String) : Option Json :=
  match fields with
  | [] => none
  | (k, v) :: rest => if k = key then some v else lookupList rest key

/-- Python truthiness (`bool(x)`) on JSON values. -/
def truthy : Json → Bool
  | Json.null => false
  | Json.bool b => b
  | Json.num q => q ≠ 0
  | Json.str s => s ≠ ""
  | Json.arr xs => !xs.isEmpty
  | Json.obj fs => !fs.isEmpty

/-- Truthiness of an optional value; Python `None` (a missing `d.get`) is falsy. -/
def truthyOpt : Option Json → Bool
  | none => false
  | some j => truthy j

/-- Numeric value of a decimal digit string (helper for `parseDecimal?`). -/
def natOfDigits (cs : List Char) : Nat :=
  cs.foldl (fun n c => n * 10 + (c.toNat - 48)) 0

/-- The whitespace stripping `float(...)` performs on its string argument. -/
def stripChars (cs : List Char) : List Char :=
  ((cs.dropWhile Char.isWhitespace).reverse.dropWhile Char.isWhitespace).reverse

/-- Python `float(s)` on a string, for plain decimal literals
`[+-]digits[.digits]` (optionally surrounded by whitespace) — the only
string forms relevant to this service.  `none` models the `ValueError`
raised on anything else. -/
def parseDecimal? (s : String) : Option ℚ :=
  let cs := stripChars s.toList
  let signBody : ℚ × List Char :=
    match cs with
    | '-' :: rest => (-1, rest)
    | '+' :: rest => (1, rest)
    | rest => (1, rest)
  let sign := signBody.1
  let body := signBody.2
  let ip := body.takeWhile Char.isDigit
  let rest := body.dropWhile Char.isDigit
  match rest with
  | [] => if ip.isEmpty then none else some (sign * (natOfDigits ip : ℚ))
  | '.' :: fp =>
    if fp.all Char.isDigit && (!ip.isEmpty || !fp.isEmpty) then
      some (sign * ((natOfDigits ip : ℚ) + (natOfDigits fp : ℚ) / (10 : ℚ) ^ fp.length))
    else none
  | _ => none

/-- Python `float(x)` on a JSON value: numbers pass through, booleans coerce
to 0/1, strings are parsed as decimals; `none` models the `TypeError` /
`ValueError` raised on `None`, lists and objects. -/
def pyFloat? : Json → Option ℚ
  | Json.num q => some q
  | Json.bool b => some (if b then 1 else 0)
  | Json.str s => parseDecimal? s
  | _ => none

mutual

/-- Structural equality of JSON values, modelling Python `==` on the decoded
payload (the forms the service compares: strings, numbers, and the values
stored in ticket cells). -/
def Json.beq : Json → Json → Bool
  | Json.null, Json.null => true
  | Json.bool a, Json.bool b => a == b
  | Json.num a, Json.num b => a == b
  | Json.str a, Json.str b => a == b
  | Json.arr a, Json.arr b => Json.beqList a b
  | Json.obj a, Json.obj b => Json.beqFields a b
  | _, _ => false

/-- Elementwise `Json.beq` on arrays. -/
def Json.beqList : List Json → List Json → Bool
  | [], [] => true
  | x :: xs, y :: ys => Json.beq x y && Json.beqList xs ys
  | _, _ => false

/-- Pairwise `Json.beq` on object field lists. -/
def Json.beqFields : List (String × Json) → List (String × Json) → Bool
  | [], [] => true
  | (k, v) :: xs, (l, w) :: ys => k == l && Json.beq v w && Json.beqFields xs ys
  | _, _ => false

end

/-- Classification statuses produced by `check_discrepancy`. -/
inductive Status where
  | OK : Status
  | OVER_REPORTED : Status
  | UNDER_REPORTED : Status
  | MISSING_TICKET : Status
deriving Repr, DecidableEq

/-- The distinct `{"error": ...}` payloads `check_discrepancy` can return
(the fetch-failure branch is outside the modelled scope, since the fetch
itself is a parameter here). -/
inductive EvalError where
  | unexpectedFormat : EvalError
  | parseFailed : EvalError
  | emptyDataset : EvalError
  | missingColumns : List String → EvalError
deriving Repr, DecidableEq

/-- The success dictionary returned by `check_discrepancy`: `num_tickets`
is `none` exactly when the key is absent from the returned dict
(the MISSING_TICKET branch omits it). -/
structure ReconciliationResult where
  cauldron_id : Json
  date : String
  drain_volume : ℚ
  total_ticket_volume : ℚ
  difference : ℚ
  relative_diff : ℚ
  status : Status
  num_tickets : Option Nat
deriving Repr

/-- A normal return of `check_discrepancy`: either a result dict or an
`{"error": ...}` dict. -/
inductive EvalOutcome where
  | result : ReconciliationResult → EvalOutcome
  | error : EvalError → EvalOutcome
deriving Repr

/-- Shape dispatch on the decoded response body (`check_discrepancy`,
step 1): a dict with a `tickets` member uses it, else a `data` member,
else the first list-valued member (defaulting to the empty list); a bare
list is used as-is; anything else returns the
"Unexpected API response format." error. -/
def extractTickets : Json → Except EvalError Json
  | Json.obj fs =>
    match lookupList fs "tickets" with
    | some v => Except.ok v
    | none =>
      match lookupList fs "data" with
      | some v => Except.ok v
      | none =>
        Except.ok (((fs.map Prod.snd).findSome? fun v =>
          match v with
          | Json.arr xs => some (Json.arr xs)
          | _ => none).getD (Json.arr []))
  | Json.arr xs => Except.ok (Json.arr xs)
  | _ => Except.error EvalError.unexpectedFormat

/-- One row of the normalized ticket table: the field list of a record. -/
abbrev Row := List (String × Json)

/-- `pd.json_normalize(all_tickets)` (`check_discrepancy`, step 2) for the
flat records this service consumes: a list of dicts becomes one row per
dict, a single dict becomes a one-row table, anything else raises and is
caught as the "Error parsing tickets JSON" branch. -/
def toRows : Json → Except EvalError (List Row)
  | Json.arr xs =>
    xs.mapM fun x =>
      match x with
      | Json.obj fs => Except.ok fs
      | _ => Except.error EvalError.parseFailed
  | Json.obj fs => Except.ok [fs]
  | _ => Except.error EvalError.parseFailed

/-- `tickets_df.columns`: the union of the rows' keys in order of first
appearance. -/
def columnsOf (rows : List Row) : List String :=
  rows.foldl
    (fun acc row =>
      row.foldl (fun acc2 kv => if kv.1 ∈ acc2 then acc2 else acc2 ++ [kv.1]) acc)
    []

/-- The `expected_cols` set of `check_discrepancy`, step 3. -/
def expectedCols : List String := ["cauldron_id", "date", "amount_collected"]

/-- `expected_cols.issubset(tickets_df.columns)`. -/
def hasExpectedCols (rows : List Row) : Bool :=
  expectedCols.all (fun c => c ∈ columnsOf rows)

/-- Recognizer for the ISO `YYYY-MM-DD[...]` date strings this service
exchanges, the `pd.to_datetime` input shapes in scope: four year digits, a
month 01-12, a day 01-31, optionally followed by a `T`- or space-separated
time suffix.  Every other string is routed to the raise path of
`pd.to_datetime` (impossible days within a valid month, such as February
30th, and exotic non-ISO formats pandas would still accept are outside the
modelled input space). -/
def isIsoDateString (s : String) : Bool :=
  match s.toList with
  | y1 :: y2 :: y3 :: y4 :: '-' :: m1 :: m2 :: '-' :: d1 :: d2 :: rest =>
    y1.isDigit && y2.isDigit && y3.isDigit && y4.isDigit &&
    m1.isDigit && m2.isDigit && d1.isDigit && d2.isDigit &&
    (let m := (m1.toNat - 48) * 10 + (m2.toNat - 48)
     let d := (d1.toNat - 48) * 10 + (d2.toNat - 48)
     decide (1 ≤ m) && decide (m ≤ 12) && decide (1 ≤ d) && decide (d ≤ 31)) &&
    (rest.isEmpty || rest.headD ' ' == 'T' || rest.headD ' ' == ' ')
  | _ => false

/-- `pd.to_datetime(date).date()` on the request's date value (line 66 of
the source, outside every `try`): a parseable ISO date string normalizes to
its `YYYY-MM-DD` part; an unparseable string or a non-string payload
raises, modelled as `none`. -/
def reqDate? : Json → Option String
  | Json.str s => if isIsoDateString s then some (s.take 10) else none
  | _ => none

/-- `pd.to_datetime(tickets_df["date"]).dt.date` on one cell: a parseable
date string normalizes to its date part; a missing cell is `NaT` and never
compares equal to a date.  (An unparseable cell makes the whole column
conversion raise — that path is `dateColumnOk` below; this function is only
consulted once the conversion has succeeded.) -/
def normDateCell : Option Json → Option String
  | some (Json.str s) => if isIsoDateString s then some (s.take 10) else none
  | _ => none

/-- Whether one cell survives `pd.to_datetime(tickets_df["date"])`
(line 65, outside every `try`): a missing cell becomes `NaT`; a string cell
must parse as a date; any other payload is routed to the raise path. -/
def dateCellOk (row : Row) : Bool :=
  match lookupList row "date" with
  | none => true
  | some (Json.str s) => isIsoDateString s
  | some _ => false

/-- Whether the whole-column date conversion of line 65 completes without
raising: it runs over every row, matched or not. -/
def dateColumnOk (rows : List Row) : Bool := rows.all dateCellOk

/-- The filter predicate of `check_discrepancy`, step 4:
`(tickets_df["cauldron_id"] == cauldron_id) & (tickets_df["date"] == date_obj)`. -/
def matchesRow (cauldron_id : Json) (dateObj : String) (row : Row) : Bool :=
  (match lookupList row "cauldron_id" with
   | some v => Json.beq v cauldron_id
   | none => false)
  && normDateCell (lookupList row "date") == some dateObj

/-- One row's contribution to `cauldron_tickets["amount_collected"].sum()`:
a numeric cell contributes its value, a boolean counts as 0/1 as in Python
arithmetic, a missing cell (`NaN`) is skipped.  (Other payloads make the
sum or the following subtraction raise — that path is `amountsOk` below;
this function is only consulted once that check has succeeded.) -/
def amountOf (row : Row) : ℚ :=
  match lookupList row "amount_collected" with
  | some (Json.num q) => q
  | some (Json.bool b) => if b then 1 else 0
  | _ => 0

/-- Whether one matched cell survives
`cauldron_tickets["amount_collected"].sum()` and the arithmetic of
lines 83-84 (outside every `try`): missing cells are skipped as `NaN`,
numbers and booleans are summable; a string or container cell raises an
uncaught `TypeError`. -/
def amountCellOk (row : Row) : Bool :=
  match lookupList row "amount_collected" with
  | none => true
  | some (Json.num _) => true
  | some (Json.bool _) => true
  | some _ => false

/-- Whether the aggregation of lines 83-84 completes without raising; it
only touches the matched rows. -/
def amountsOk (rows : List Row) : Bool := rows.all amountCellOk

/-- `cauldron_tickets["amount_collected"].sum()`. -/
def totalOf (rows : List Row) : ℚ :=
  rows.foldl (fun acc row => acc + amountOf row) 0

/-- The dict returned when no ticket matches (`check_discrepancy`, the
`cauldron_tickets.empty` branch): note `difference` is `drain_volume`
as-is (not an absolute value) and `num_tickets` is absent. -/
def missingResult (cauldron_id : Json) (dateObj : String) (drain_volume : ℚ) :
    ReconciliationResult :=
  { cauldron_id := cauldron_id
    date := dateObj
    drain_volume := drain_volume
    total_ticket_volume := 0
    difference := drain_volume
    relative_diff := 1
    status := Status.MISSING_TICKET
    num_tickets := none }

/-- The dict returned from the comparison branch (`check_discrepancy`,
step 5): sums the matching rows, takes the absolute difference, divides by
`max(drain_volume, 1e-6)` and classifies with the OR of the tolerance and
threshold tests. -/
def successResult (cauldron_id : Json) (dateObj : String)
    (drain_volume tolerance threshold : ℚ) (matching : List Row) :
    ReconciliationResult :=
  let total := totalOf matching
  let diff := |total - drain_volume|
  let relDiff := diff / max drain_volume (1 / 1000000)
  { cauldron_id := cauldron_id
    date := dateObj
    drain_volume := drain_volume
    total_ticket_volume := total
    difference := diff
    relative_diff := relDiff
    status :=
      if relDiff ≤ tolerance ∨ diff ≤ threshold then Status.OK
      else if total > drain_volume then Status.OVER_REPORTED
      else Status.UNDER_REPORTED
    num_tickets := some matching.length }

/-- `check_discrepancy(cauldron_id, date, drain_volume, tolerance, threshold)`
applied to an already-fetched response body `apiData`.  `Except.ok` is a
normal Python return (result dict or error dict); `Except.error` is an
unhandled Python exception escaping the function: the ticket-date column
conversion (line 65), the request-date parse (line 66) and the
`amount_collected` aggregation (lines 83-84) all sit outside every `try`
block in the source, in that order. -/
def check_discrepancy (apiData : Json) (cauldron_id date : Json)
    (drain_volume : ℚ) (tolerance : ℚ) (threshold : ℚ) :
    Except String EvalOutcome :=
  match extractTickets apiData with
  | Except.error e => Except.ok (EvalOutcome.error e)
  | Except.ok allTickets =>
    match toRows allTickets with
    | Except.error e => Except.ok (EvalOutcome.error e)
    | Except.ok rows =>
      if rows.isEmpty then Except.ok (EvalOutcome.error EvalError.emptyDataset)
      else if !hasExpectedCols rows then
        Except.ok (EvalOutcome.error (EvalError.missingColumns (columnsOf rows)))
      else if !dateColumnOk rows then
        Except.error "pd.to_datetime raised converting the ticket date column"
      else
        match reqDate? date with
        | none => Except.error "pd.to_datetime raised on the request date"
        | some dateObj =>
          if (rows.filter (matchesRow cauldron_id dateObj)).isEmpty then
            Except.ok (EvalOutcome.result (missingResult cauldron_id dateObj drain_volume))
          else if !amountsOk (rows.filter (matchesRow cauldron_id dateObj)) then
            Except.error "TypeError raised summing amount_collected"
          else
            Except.ok (EvalOutcome.result
              (successResult cauldron_id dateObj drain_volume tolerance threshold
                (rows.filter (matchesRow cauldron_id dateObj))))

/-- The message string of each `{"error": ...}` dict `check_discrepancy`
returns (the parse branch also interpolates the exception text, elided
here). -/
def errorMessage : EvalError → String
  | EvalError.unexpectedFormat => "Unexpected API response format."
  | EvalError.parseFailed => "Error parsing tickets JSON"
  | EvalError.emptyDataset => "No ticket data found in response."
  | EvalError.missingColumns cols =>
    "Missing expected columns in ticket data: " ++ String.intercalate ", " cols

/-- `{"error": msg}` as a JSON body. -/
def errObj (msg : String) : Json :=
  Json.obj [("error", Json.str msg)]

/-- `jsonify` of the success dict of `check_discrepancy`: `num_tickets` is
present only when the comparison branch produced it. -/
def resultToJson (r : ReconciliationResult) : Json :=
  Json.obj
    ([("cauldron_id", r.cauldron_id),
      ("date", Json.str r.date),
      ("drain_volume", Json.num r.drain_volume),
      ("total_ticket_volume", Json.num r.total_ticket_volume),
      ("status", Json.str
        (match r.status with
         | Status.OK => "OK"
         | Status.OVER_REPORTED => "OVER_REPORTED"
         | Status.UNDER_REPORTED => "UNDER_REPORTED"
         | Status.MISSING_TICKET => "MISSING_TICKET")),
      ("difference", Json.num r.difference),
      ("relative_diff", Json.num r.relative_diff)]
     ++ (match r.num_tickets with
         | some n => [("num_tickets", Json.num (n : ℚ))]
         | none => []))

/-- `jsonify` of whatever `check_discrepancy` returned. -/
def outcomeToJson : EvalOutcome → Json
  | EvalOutcome.result r => resultToJson r
  | EvalOutcome.error e => errObj (errorMessage e)

/-- The Flask handler `detect_daily_discrepancy`, applied to the decoded
response body of the upstream tickets API (`apiData`) and the decoded
request body (`none` models `request.get_json(silent=True)` returning
`None`).  `Except.ok (st, body)` is an HTTP response with status `st`;
`Except.error` is an unhandled Python exception (the bare `float(...)`
calls, attribute access on non-dict values, and the date parse inside
`check_discrepancy` are all outside any `try`). -/
def detect_daily_discrepancy (apiData : Json) (reqBody : Option Json) :
    Except String (Nat × Json) :=
  match reqBody with
  | none => Except.ok (400, errObj "Invalid or missing JSON body")
  | some body =>
    match body with
    | Json.obj fs =>
      if !truthy ((lookupList fs "cauldron_data").getD (Json.obj [])) then
        Except.ok (400, errObj "Missing 'cauldron_data' field")
      else
        match (lookupList fs "cauldron_data").getD (Json.obj []) with
        | Json.obj cfs =>
          if !(truthyOpt (lookupList cfs "cauldron_id")
               && truthyOpt (lookupList cfs "date_time")
               && (lookupList cfs "drain_volume").isSome) then
            Except.ok (400, errObj "Missing required cauldron fields")
          else
            match lookupList cfs "cauldron_id", lookupList cfs "date_time",
                lookupList cfs "drain_volume" with
            | some cauldronId, some date, some drain =>
              match pyFloat? ((lookupList fs "tolerance").getD (Json.num (5 / 100))) with
              | none => Except.error "float() raised on tolerance"
              | some tolerance =>
                match pyFloat? ((lookupList fs "threshold").getD (Json.num 5)) with
                | none => Except.error "float() raised on threshold"
                | some threshold =>
                  match pyFloat? drain with
                  | none => Except.error "float() raised on drain_volume"
                  | some drainVolume =>
                    match check_discrepancy apiData cauldronId date drainVolume
                        tolerance threshold with
                    | Except.error msg => Except.error msg
                    | Except.ok outcome => Except.ok (200, outcomeToJson outcome)
            | _, _, _ => Except.ok (400, errObj "Missing required cauldron fields")
        | _ => Except.error "AttributeError: .get on a non-dict cauldron_data"
    | _ => Except.error "AttributeError: .get on a non-dict body"

/-! ## Concrete payloads used to instantiate the theorems -/

/-- The worked example's ticket payload (two `c1` tickets on 2025-11-01). -/
def exTickets : Json := Json.arr
  [Json.obj [("cauldron_id", Json.str "c1"), ("date", Json.str "2025-11-01"),
             ("amount_collected", Json.num 60)],
   Json.obj [("cauldron_id", Json.str "c1"), ("date", Json.str "2025-11-01"),
             ("amount_collected", Json.num 42)]]

/-- The rows `pd.json_normalize` produces for `exTickets`. -/
def exRows : List Row :=
  [[("cauldron_id", Json.str "c1"), ("date", Json.str "2025-11-01"),
    ("amount_collected", Json.num 60)],
   [("cauldron_id", Json.str "c1"), ("date", Json.str "2025-11-01"),
    ("amount_collected", Json.num 42)]]

/-! ## Helper lemmas -/

/-- Unfolding of `successResult` into its explicit field values. -/
theorem successResult_def (cid : Json) (dObj : String) (dv tol thr : ℚ) (m : List Row) :
    successResult cid dObj dv tol thr m =
      { cauldron_id := cid
        date := dObj
        drain_volume := dv
        total_ticket_volume := totalOf m
        difference := |totalOf m - dv|
        relative_diff := |totalOf m - dv| / max dv (1 / 1000000)
        status :=
          if |totalOf m - dv| / max dv (1 / 1000000) ≤ tol ∨ |totalOf m - dv| ≤ thr then
            Status.OK
          else if totalOf m > dv then Status.OVER_REPORTED
          else Status.UNDER_REPORTED
        num_tickets := some m.length } := rfl

/-- Any result dict returned by `check_discrepancy` comes from one of its two
terminal branches: the empty-filter (MISSING_TICKET) branch or the
comparison branch over a non-empty matching list. -/
theorem check_result_cases (apiData cid dt : Json) (dv tol thr : ℚ)
    (r : ReconciliationResult)
    (h : check_discrepancy apiData cid dt dv tol thr = Except.ok (EvalOutcome.result r)) :
    (∃ dObj, r = missingResult cid dObj dv) ∨
    (∃ dObj m, m ≠ [] ∧ r = successResult cid dObj dv tol thr m) := by
  unfold check_discrepancy at h
  split at h
  · simp at h
  · split at h
    · simp at h
    · rename_i rows hrows
      split at h
      · simp at h
      · split at h
        · simp at h
        · split at h
          · simp at h
          · split at h
            · simp at h
            · rename_i dObj hdObj
              split at h
              · left
                simp only [Except.ok.injEq, EvalOutcome.result.injEq] at h
                exact ⟨dObj, h.symm⟩
              · rename_i hfilter
                split at h
                · simp at h
                · right
                  simp only [Except.ok.injEq, EvalOutcome.result.injEq] at h
                  refine ⟨dObj, rows.filter (matchesRow cid dObj), ?_, h.symm⟩
                  simpa [List.isEmpty_iff] using hfilter

/-! ## Claim theorems -/

/-- C1: whenever the evaluation finds at least one matching ticket (i.e. it
returns a result dict carrying `num_tickets`), the status is `OK` iff
`relative_diff <= tolerance` or `difference <= threshold` (either alone
suffices); otherwise it is `OVER_REPORTED` iff additionally
`total_ticket_volume > drain_volume`, and `UNDER_REPORTED` in every
remaining case. -/
theorem classification_or_combined (apiData cid dt : Json) (dv tol thr : ℚ)
    (r : ReconciliationResult)
    (h : check_discrepancy apiData cid dt dv tol thr = Except.ok (EvalOutcome.result r))
    (hn : r.num_tickets ≠ none) :
    (r.status = Status.OK ↔ (r.relative_diff ≤ tol ∨ r.difference ≤ thr)) ∧
    (r.status = Status.OVER_REPORTED ↔
      (¬(r.relative_diff ≤ tol ∨ r.difference ≤ thr) ∧
        r.total_ticket_volume > r.drain_volume)) ∧
    (r.status = Status.UNDER_REPORTED ↔
      (¬(r.relative_diff ≤ tol ∨ r.difference ≤ thr) ∧
        ¬ r.total_ticket_volume > r.drain_volume)) := by
  rcases check_result_cases apiData cid dt dv tol thr r h with ⟨dObj, rfl⟩ | ⟨dObj, m, hm, rfl⟩
  · exact absurd rfl hn
  · rw [successResult_def]
    split_ifs with h1 h2
    · exact ⟨⟨fun _ => h1, fun _ => rfl⟩,
             ⟨fun hco => absurd hco (by simp), fun hc => absurd h1 hc.1⟩,
             ⟨fun hco => absurd hco (by simp), fun hc => absurd h1 hc.1⟩⟩
    · exact ⟨⟨fun hco => absurd hco (by simp), fun hab => absurd hab h1⟩,
             ⟨fun _ => ⟨h1, h2⟩, fun _ => rfl⟩,
             ⟨fun hco => absurd hco (by simp), fun hc => absurd h2 hc.2⟩⟩
    · exact ⟨⟨fun hco => absurd hco (by simp), fun hab => absurd hab h1⟩,
             ⟨fun hco => absurd hco (by simp), fun hc => absurd hc.2 h2⟩,
             ⟨fun _ => ⟨h1, h2⟩, fun _ => rfl⟩⟩

/-- Witness for C1: the worked example (two matching `c1` tickets, drain 100)
satisfies the hypotheses and is classified `OK` because
`relative_diff = 1/50 ≤ 5/100`. -/
theorem classification_or_combined_witness :
    check_discrepancy exTickets (Json.str "c1") (Json.str "2025-11-01") 100 (5 / 100) 5
      = Except.ok (EvalOutcome.result
          (successResult (Json.str "c1") "2025-11-01" 100 (5 / 100) 5 exRows)) ∧
    ((successResult (Json.str "c1") "2025-11-01" 100 (5 / 100) 5 exRows).status = Status.OK ↔
      ((successResult (Json.str "c1") "2025-11-01" 100 (5 / 100) 5 exRows).relative_diff ≤ 5 / 100 ∨
       (successResult (Json.str "c1") "2025-11-01" 100 (5 / 100) 5 exRows).difference ≤ 5)) :=
  ⟨by rfl,
   (classification_or_combined exTickets (Json.str "c1") (Json.str "2025-11-01") 100 (5 / 100) 5
      (successResult (Json.str "c1") "2025-11-01" 100 (5 / 100) 5 exRows)
      (by rfl) (by simp [successResult_def])).1⟩

/-- C2: when no ticket record matches the request's (cauldron_id,
normalized date) pair, the evaluation terminates in the dedicated branch
whose result has `status = MISSING_TICKET`, `total_ticket_volume = 0.0`,
`difference = drain_volume`, `relative_diff = 1.0` and no `num_tickets`
key — it never reaches the comparison logic. -/
theorem missing_ticket_terminal (apiData cid dt : Json) (dv tol thr : ℚ)
    (allT : Json) (rows : List Row) (dObj : String)
    (hE : extractTickets apiData = Except.ok allT)
    (hR : toRows allT = Except.ok rows)
    (hne : rows ≠ [])
    (hcols : hasExpectedCols rows = true)
    (hdates : dateColumnOk rows = true)
    (hdate : reqDate? dt = some dObj)
    (hfilter : rows.filter (matchesRow cid dObj) = []) :
    check_discrepancy apiData cid dt dv tol thr
      = Except.ok (EvalOutcome.result (missingResult cid dObj dv)) ∧
    (missingResult cid dObj dv).status = Status.MISSING_TICKET ∧
    (missingResult cid dObj dv).total_ticket_volume = 0 ∧
    (missingResult cid dObj dv).difference = dv ∧
    (missingResult cid dObj dv).relative_diff = 1 ∧
    (missingResult cid dObj dv).num_tickets = none := by
  refine ⟨?_, rfl, rfl, rfl, rfl, rfl⟩
  simp only [check_discrepancy, hE, hR, hdate]
  simp [hne, hcols, hdates, hfilter]

/-- Witness for C2: the worked example queried for the absent cauldron
`c2` satisfies every hypothesis. -/
theorem missing_ticket_terminal_witness :
    check_discrepancy exTickets (Json.str "c2") (Json.str "2025-11-01") 100 (5 / 100) 5
      = Except.ok (EvalOutcome.result (missingResult (Json.str "c2") "2025-11-01" 100)) ∧
    (missingResult (Json.str "c2") "2025-11-01" 100).status = Status.MISSING_TICKET ∧
    (missingResult (Json.str "c2") "2025-11-01" 100).total_ticket_volume = 0 ∧
    (missingResult (Json.str "c2") "2025-11-01" 100).difference = 100 ∧
    (missingResult (Json.str "c2") "2025-11-01" 100).relative_diff = 1 ∧
    (missingResult (Json.str "c2") "2025-11-01" 100).num_tickets = none :=
  missing_ticket_terminal exTickets (Json.str "c2") (Json.str "2025-11-01") 100 (5 / 100) 5
    (Json.arr
      [Json.obj [("cauldron_id", Json.str "c1"), ("date", Json.str "2025-11-01"),
                 ("amount_collected", Json.num 60)],
       Json.obj [("cauldron_id", Json.str "c1"), ("date", Json.str "2025-11-01"),
                 ("amount_collected", Json.num 42)]])
    exRows "2025-11-01" rfl rfl (by simp [exRows]) rfl rfl rfl rfl

/-- C3 fails as stated: with a negative `drain_volume` and no matching
ticket, the returned `difference` is `drain_volume` itself (here `-1`),
not the absolute value `|0 - (-1)| = 1`. -/
theorem difference_abs_cex :
    check_discrepancy exTickets (Json.str "c2") (Json.str "2025-11-01") (-1) (5 / 100) 5
      = Except.ok (EvalOutcome.result (missingResult (Json.str "c2") "2025-11-01" (-1))) ∧
    (missingResult (Json.str "c2") "2025-11-01" (-1)).difference ≠
      |(missingResult (Json.str "c2") "2025-11-01" (-1)).total_ticket_volume -
        (missingResult (Json.str "c2") "2025-11-01" (-1)).drain_volume| :=
  ⟨by rfl, by norm_num [missingResult]⟩

/-- C3 amended: `difference = |total_ticket_volume - drain_volume|` holds
for every returned result that found at least one matching ticket, and in
the MISSING_TICKET branch whenever `drain_volume ≥ 0` (there the code
returns `drain_volume` as-is, which coincides with the absolute value only
for non-negative drains). -/
theorem difference_abs_amended (apiData cid dt : Json) (dv tol thr : ℚ)
    (r : ReconciliationResult)
    (h : check_discrepancy apiData cid dt dv tol thr = Except.ok (EvalOutcome.result r))
    (hcase : r.num_tickets ≠ none ∨ 0 ≤ dv) :
    r.difference = |r.total_ticket_volume - r.drain_volume| := by
  rcases check_result_cases apiData cid dt dv tol thr r h with ⟨dObj, rfl⟩ | ⟨dObj, m, hm, rfl⟩
  · rcases hcase with hn | hdv
    · exact absurd rfl hn
    · show dv = |0 - dv|
      rw [zero_sub, abs_neg, abs_of_nonneg hdv]
  · rfl

/-- Witness for C3 amended: the worked example (two matching tickets). -/
theorem difference_abs_amended_witness :
    (successResult (Json.str "c1") "2025-11-01" 100 (5 / 100) 5 exRows).difference =
      |(successResult (Json.str "c1") "2025-11-01" 100 (5 / 100) 5 exRows).total_ticket_volume -
        (successResult (Json.str "c1") "2025-11-01" 100 (5 / 100) 5 exRows).drain_volume| :=
  difference_abs_amended exTickets (Json.str "c1") (Json.str "2025-11-01") 100 (5 / 100) 5
    (successResult (Json.str "c1") "2025-11-01" 100 (5 / 100) 5 exRows)
    (by rfl) (Or.inl (by simp [successResult_def]))

/-- C4 fails as stated: with `drain_volume = 0` and no matching ticket, the
returned `relative_diff` is the hard-coded `1.0`, while
`difference / max(drain_volume, 1e-6) = 0 / 1e-6 = 0`. -/
theorem relative_diff_cex :
    check_discrepancy exTickets (Json.str "c2") (Json.str "2025-11-01") 0 (5 / 100) 5
      = Except.ok (EvalOutcome.result (missingResult (Json.str "c2") "2025-11-01" 0)) ∧
    (missingResult (Json.str "c2") "2025-11-01" 0).relative_diff ≠
      (missingResult (Json.str "c2") "2025-11-01" 0).difference /
        max (missingResult (Json.str "c2") "2025-11-01" 0).drain_volume (1 / 1000000) :=
  ⟨by rfl, by simp [missingResult, zero_div]⟩

/-- C4 amended: `relative_diff = difference / max(drain_volume, 1e-6)` holds
for every returned result that found at least one matching ticket, and in
the MISSING_TICKET branch whenever `drain_volume ≥ 1e-6` (there the code
hard-codes `1.0`, which agrees with the formula only when the drain is at
least the 1e-6 floor). -/
theorem relative_diff_amended (apiData cid dt : Json) (dv tol thr : ℚ)
    (r : ReconciliationResult)
    (h : check_discrepancy apiData cid dt dv tol thr = Except.ok (EvalOutcome.result r))
    (hcase : r.num_tickets ≠ none ∨ (1 / 1000000 : ℚ) ≤ dv) :
    r.relative_diff = r.difference / max r.drain_volume (1 / 1000000) := by
  rcases check_result_cases apiData cid dt dv tol thr r h with ⟨dObj, rfl⟩ | ⟨dObj, m, hm, rfl⟩
  · rcases hcase with hn | hdv
    · exact absurd rfl hn
    · show (1 : ℚ) = dv / max dv (1 / 1000000)
      have hpos : (0 : ℚ) < dv := lt_of_lt_of_le (by norm_num) hdv
      rw [max_eq_left hdv, div_self (ne_of_gt hpos)]
  · rfl

/-- Witness for C4 amended: the worked example (two matching tickets). -/
theorem relative_diff_amended_witness :
    (successResult (Json.str "c1") "2025-11-01" 100 (5 / 100) 5 exRows).relative_diff =
      (successResult (Json.str "c1") "2025-11-01" 100 (5 / 100) 5 exRows).difference /
        max (successResult (Json.str "c1") "2025-11-01" 100 (5 / 100) 5 exRows).drain_volume
          (1 / 1000000) :=
  relative_diff_amended exTickets (Json.str "c1") (Json.str "2025-11-01") 100 (5 / 100) 5
    (successResult (Json.str "c1") "2025-11-01" 100 (5 / 100) 5 exRows)
    (by rfl) (Or.inl (by simp [successResult_def]))

/-- C5: wrapping the same underlying ticket list as `{"tickets": [...]}`,
as `{"data": [...]}`, or sending it bare produces identical evaluation
results for identical request parameters. -/
theorem response_shape_equivalence (L : List Json) (cid dt : Json) (dv tol thr : ℚ) :
    check_discrepancy (Json.obj [("tickets", Json.arr L)]) cid dt dv tol thr
      = check_discrepancy (Json.arr L) cid dt dv tol thr ∧
    check_discrepancy (Json.obj [("data", Json.arr L)]) cid dt dv tol thr
      = check_discrepancy (Json.arr L) cid dt dv tol thr := by
  constructor <;> rfl

/-- A dict always passes the shape dispatch (possibly via the empty-list
fallback), so it can never produce the unexpected-format error. -/
theorem extractTickets_obj (fs : List (String × Json)) :
    ∃ t, extractTickets (Json.obj fs) = Except.ok t := by
  unfold extractTickets
  rcases h1 : lookupList fs "tickets" with _ | v
  · rcases h2 : lookupList fs "data" with _ | w
    · simp only [h1, h2]
      exact ⟨_, rfl⟩
    · simp only [h1, h2]
      exact ⟨w, rfl⟩
  · simp only [h1]
    exact ⟨v, rfl⟩

/-- The only error `pd.json_normalize` can signal is the parse failure. -/
theorem mapM_rows_error (xs : List Json) (e : EvalError)
    (h : xs.mapM (fun x =>
        match x with
        | Json.obj fs => Except.ok fs
        | _ => Except.error EvalError.parseFailed) = Except.error e) :
    e = EvalError.parseFailed := by
  induction xs with
  | nil => exact Except.noConfusion h
  | cons x tl ih =>
    rw [List.mapM_cons] at h
    cases x with
    | obj fs =>
      simp only [bind, Except.bind] at h
      cases htl : tl.mapM (fun x =>
          match x with
          | Json.obj fs => Except.ok fs
          | _ => Except.error EvalError.parseFailed) with
      | error e2 =>
        rw [htl] at h
        simp only [Except.error.injEq] at h
        subst h
        exact ih htl
      | ok ys =>
        rw [htl] at h
        simp [pure, Except.pure] at h
    | null => simp [bind, Except.bind] at h; exact h.symm
    | bool b => simp [bind, Except.bind] at h; exact h.symm
    | num q => simp [bind, Except.bind] at h; exact h.symm
    | str s => simp [bind, Except.bind] at h; exact h.symm
    | arr ys => simp [bind, Except.bind] at h; exact h.symm

/-- `toRows` can only fail with the parse-failure error. -/
theorem toRows_error (j : Json) (e : EvalError) (h : toRows j = Except.error e) :
    e = EvalError.parseFailed := by
  cases j with
  | arr xs => exact mapM_rows_error xs e h
  | obj fs => simp [toRows] at h
  | null => simp [toRows] at h; exact h.symm
  | bool b => simp [toRows] at h; exact h.symm
  | num q => simp [toRows] at h; exact h.symm
  | str s => simp [toRows] at h; exact h.symm

/-- Once the shape dispatch has accepted the payload, the evaluation can
never report the unexpected-format error. -/
theorem check_not_unexpected_after_extract (apiData cid dt : Json) (dv tol thr : ℚ)
    (allT : Json) (hE : extractTickets apiData = Except.ok allT) :
    check_discrepancy apiData cid dt dv tol thr
      ≠ Except.ok (EvalOutcome.error EvalError.unexpectedFormat) := by
  intro h
  simp only [check_discrepancy, hE] at h
  split at h
  · rename_i e htr
    rw [toRows_error _ _ htr] at h
    simp at h
  · split at h
    · simp at h
    · split at h
      · simp at h
      · split at h
        · simp at h
        · split at h
          · simp at h
          · split at h
            · simp at h
            · split at h <;> simp at h

/-- C6 fails as stated: a mapping with no list-valued member (here
`{"a": 1}`) is accepted by the shape dispatch via the empty-list fallback
and then fails with the empty-dataset error, not the unexpected-format
error. -/
theorem unexpected_format_cex :
    check_discrepancy (Json.obj [("a", Json.num 1)]) (Json.str "c1") (Json.str "2025-11-01")
        100 (5 / 100) 5
      = Except.ok (EvalOutcome.error EvalError.emptyDataset) ∧
    EvalError.emptyDataset ≠ EvalError.unexpectedFormat :=
  ⟨by rfl, by decide⟩

/-- C6 amended: the evaluation reports the unexpected-format error exactly
when the top-level response body is neither a mapping nor a list (any
mapping — even one without a list-valued member — takes the fallback and
fails later, if at all, with a different error). -/
theorem unexpected_format_amended (apiData cid dt : Json) (dv tol thr : ℚ) :
    check_discrepancy apiData cid dt dv tol thr
        = Except.ok (EvalOutcome.error EvalError.unexpectedFormat)
      ↔ ((∀ fs, apiData ≠ Json.obj fs) ∧ (∀ xs, apiData ≠ Json.arr xs)) := by
  constructor
  · intro h
    cases apiData with
    | obj fs =>
      obtain ⟨t, hT⟩ := extractTickets_obj fs
      exact absurd h (check_not_unexpected_after_extract _ cid dt dv tol thr t hT)
    | arr xs =>
      exact absurd h (check_not_unexpected_after_extract _ cid dt dv tol thr (Json.arr xs) rfl)
    | null => exact ⟨fun fs hc => Json.noConfusion hc, fun xs hc => Json.noConfusion hc⟩
    | bool b => exact ⟨fun fs hc => Json.noConfusion hc, fun xs hc => Json.noConfusion hc⟩
    | num q => exact ⟨fun fs hc => Json.noConfusion hc, fun xs hc => Json.noConfusion hc⟩
    | str s => exact ⟨fun fs hc => Json.noConfusion hc, fun xs hc => Json.noConfusion hc⟩
  · intro hshape
    cases apiData with
    | obj fs => exact absurd rfl (hshape.1 fs)
    | arr xs => exact absurd rfl (hshape.2 xs)
    | null => rfl
    | bool b => rfl
    | num q => rfl
    | str s => rfl

/-- C7: the spec's worked example — two `c1` tickets (60 and 42) on
2025-11-01 against a drain of 100 with defaults 0.05/5.0 — yields
`total_ticket_volume = 102`, `difference = 2`, `relative_diff = 0.02`,
`status = OK` and `num_tickets = 2`. -/
theorem example_reconciliation :
    check_discrepancy exTickets (Json.str "c1") (Json.str "2025-11-01") 100 (5 / 100) 5
      = Except.ok (EvalOutcome.result
          { cauldron_id := Json.str "c1"
            date := "2025-11-01"
            drain_volume := 100
            total_ticket_volume := 102
            difference := 2
            relative_diff := 2 / 100
            status := Status.OK
            num_tickets := some 2 }) := by
  have hcheck : check_discrepancy exTickets (Json.str "c1") (Json.str "2025-11-01") 100
      (5 / 100) 5
      = Except.ok (EvalOutcome.result
          (successResult (Json.str "c1") "2025-11-01" 100 (5 / 100) 5 exRows)) := rfl
  have h60 : amountOf [("cauldron_id", Json.str "c1"), ("date", Json.str "2025-11-01"),
      ("amount_collected", Json.num 60)] = 60 := rfl
  have h42 : amountOf [("cauldron_id", Json.str "c1"), ("date", Json.str "2025-11-01"),
      ("amount_collected", Json.num 42)] = 42 := rfl
  have htot : totalOf exRows = 102 := by
    simp only [totalOf, exRows, List.foldl, h60, h42]
    norm_num
  have habs : |(102 : ℚ) - 100| = 2 := by norm_num
  have hmax : max (100 : ℚ) (1 / 1000000) = 100 := max_eq_left (by norm_num)
  have hlen : exRows.length = 2 := rfl
  rw [hcheck, successResult_def, htot, habs, hmax, hlen]
  norm_num

/-- C10: when the request body passes the field-presence validation and the
evaluator returns an error dict, the handler serializes it as
`{"error": ...}` with HTTP status 200 — the same success status as a
genuine result; moreover (second conjunct) every handler response carries
status 200 or 400, and 400 occurs only with one of the three
request-validation error payloads. -/
theorem evaluator_error_http_200 (apiData : Json) (fs cfs : Row)
    (cid dt dv : Json) (tol thr dvq : ℚ) (e : EvalError)
    (hcd : lookupList fs "cauldron_data" = some (Json.obj cfs))
    (hcid : lookupList cfs "cauldron_id" = some cid) (hcidT : truthy cid = true)
    (hdt : lookupList cfs "date_time" = some dt) (hdtT : truthy dt = true)
    (hdv : lookupList cfs "drain_volume" = some dv)
    (htol : pyFloat? ((lookupList fs "tolerance").getD (Json.num (5 / 100))) = some tol)
    (hthr : pyFloat? ((lookupList fs "threshold").getD (Json.num 5)) = some thr)
    (hdvf : pyFloat? dv = some dvq)
    (hck : check_discrepancy apiData cid dt dvq tol thr = Except.ok (EvalOutcome.error e)) :
    detect_daily_discrepancy apiData (some (Json.obj fs))
      = Except.ok (200, errObj (errorMessage e)) ∧
    (∀ (apiData2 : Json) (b : Option Json) (st : Nat) (resp : Json),
      detect_daily_discrepancy apiData2 b = Except.ok (st, resp) →
      st = 200 ∨ (st = 400 ∧
        (resp = errObj "Invalid or missing JSON body" ∨
         resp = errObj "Missing 'cauldron_data' field" ∨
         resp = errObj "Missing required cauldron fields"))) := by
  constructor
  · have htr : truthy (Json.obj cfs) = true := by
      cases cfs with
      | nil => simp [lookupList] at hcid
      | cons a l => simp [truthy]
    simp [detect_daily_discrepancy, hcd, htr, hcid, hdt, hdv, truthyOpt, hcidT, hdtT,
      htol, hthr, hdvf, hck, outcomeToJson]
  · intro apiData2 b st resp hresp
    cases b with
    | none =>
      simp only [detect_daily_discrepancy, Except.ok.injEq, Prod.mk.injEq] at hresp
      exact Or.inr ⟨hresp.1.symm, Or.inl hresp.2.symm⟩
    | some body =>
      cases body with
      | null =>
        simp only [detect_daily_discrepancy] at hresp
        exact Except.noConfusion hresp
      | bool x =>
        simp only [detect_daily_discrepancy] at hresp
        exact Except.noConfusion hresp
      | num x =>
        simp only [detect_daily_discrepancy] at hresp
        exact Except.noConfusion hresp
      | str x =>
        simp only [detect_daily_discrepancy] at hresp
        exact Except.noConfusion hresp
      | arr x =>
        simp only [detect_daily_discrepancy] at hresp
        exact Except.noConfusion hresp
      | obj fs2 =>
        simp only [detect_daily_discrepancy] at hresp
        split at hresp
        · simp only [Except.ok.injEq, Prod.mk.injEq] at hresp
          exact Or.inr ⟨hresp.1.symm, Or.inr (Or.inl hresp.2.symm)⟩
        · split at hresp
          · split at hresp
            · simp only [Except.ok.injEq, Prod.mk.injEq] at hresp
              exact Or.inr ⟨hresp.1.symm, Or.inr (Or.inr hresp.2.symm)⟩
            · split at hresp
              · split at hresp
                · exact Except.noConfusion hresp
                · split at hresp
                  · exact Except.noConfusion hresp
                  · split at hresp
                    · exact Except.noConfusion hresp
                    · split at hresp
                      · exact Except.noConfusion hresp
                      · simp only [Except.ok.injEq, Prod.mk.injEq] at hresp
                        exact Or.inl hresp.1.symm
              · simp only [Except.ok.injEq, Prod.mk.injEq] at hresp
                exact Or.inr ⟨hresp.1.symm, Or.inr (Or.inr hresp.2.symm)⟩
          · exact Except.noConfusion hresp

/-- Witness for C10: with an upstream body that is a bare string, the
evaluator fails with the unexpected-format error and the handler still
answers HTTP 200 with the error payload. -/
theorem evaluator_error_http_200_witness :
    detect_daily_discrepancy (Json.str "zap")
        (some (Json.obj
          [("cauldron_data", Json.obj
            [("cauldron_id", Json.str "c1"), ("date_time", Json.str "2025-11-01"),
             ("drain_volume", Json.num 100)])]))
      = Except.ok (200, errObj (errorMessage EvalError.unexpectedFormat)) :=
  (evaluator_error_http_200 (Json.str "zap")
    [("cauldron_data", Json.obj
      [("cauldron_id", Json.str "c1"), ("date_time", Json.str "2025-11-01"),
       ("drain_volume", Json.num 100)])]
    [("cauldron_id", Json.str "c1"), ("date_time", Json.str "2025-11-01"),
     ("drain_volume", Json.num 100)]
    (Json.str "c1") (Json.str "2025-11-01") (Json.num 100) (5 / 100) 5 100
    EvalError.unexpectedFormat
    rfl rfl rfl rfl rfl rfl rfl rfl rfl rfl).1
